import Mathlib

/-!
Verification of the motion-triggered media playback controller
(`first_robotics_falcon_halloween`).

Shallow embedding of the trigger filter, the arm/fire/cooldown logic, the
playback wait loops, the playlist rotation and the startup validation found in
`src/lib/rpi/rpi_video_screen.py`, `src/lib/rpi/rpi_single_screen.py`,
`src/lib/rpi/rpi_dual_screen.py` and `src/lib/arduino/ultra_space.py`.

Timestamps and distances are modelled as rationals; the Python mutable state of
each component is made explicit as a structure threaded through a step
function, and polling loops are modelled as functions over the finite list of
per-poll observations (one entry per loop iteration, holding exactly what that
iteration reads from the environment: the shutdown flag at the `while` guard,
the wall clock, and any player states read in the body).
-/

namespace Halloween

/-! ### Trigger filter (`rpi_video_screen.py`, `detect_motion_filtered`) -/

/-- Constant `MOTION_DEBOUNCE_TIME = 0.5` (seconds) from `rpi_video_screen.py`. -/
def MOTION_DEBOUNCE_TIME : ℚ := 1/2

/-- Constant `MOTION_CONFIRMATION_COUNT = 2` from `rpi_video_screen.py`. -/
def MOTION_CONFIRMATION_COUNT : ℕ := 2

/-- Constant `EXTENDED_COOLDOWN = 2` (seconds) from `rpi_video_screen.py`. -/
def EXTENDED_COOLDOWN : ℚ := 2

/-- The module-level mutable state of the motion filter in
`rpi_video_screen.py`: the globals `motion_confirmation_counter` and
`last_motion_time`. -/
structure MotionState where
  motion_confirmation_counter : ℕ
  last_motion_time : ℚ
  deriving Repr, DecidableEq

/-- The globals are initialised to `motion_confirmation_counter = 0` and
`last_motion_time = 0` (rpi_video_screen.py:62-63). -/
def initMotionState : MotionState := ⟨0, 0⟩

/-- Embedding of `detect_motion_filtered()` (rpi_video_screen.py:556-585) for
the case where `motion_sensor` is not `None` (when it is `None` the function
returns `False` without reading a sample or touching any state).
Inputs: the current filter state, `current_time = time.time()` and the raw
sample `raw_motion = motion_sensor.motion_detected`; output: the new state and
the returned boolean.  The debounce guard returns early, before any counter
update; on the confirming read the counter is reset to `0` and
`last_motion_time` is set to the current time. -/
def detect_motion_filtered (s : MotionState) (current_time : ℚ) (raw_motion : Bool) :
    MotionState × Bool :=
  if current_time - s.last_motion_time < MOTION_DEBOUNCE_TIME then
    (s, false)
  else if raw_motion then
    if MOTION_CONFIRMATION_COUNT ≤ s.motion_confirmation_counter + 1 then
      (⟨0, current_time⟩, true)
    else
      (⟨s.motion_confirmation_counter + 1, s.last_motion_time⟩, false)
  else
    (⟨0, s.last_motion_time⟩, false)

/-- Run the filter over a list of polls, each poll supplying the wall-clock
time and the raw sample.  Returns the final state and the list of returned
booleans, in order. -/
def runMotion (s : MotionState) : List (ℚ × Bool) → MotionState × List Bool
  | [] => (s, [])
  | (t, r) :: rest =>
    let step := detect_motion_filtered s t r
    let tail := runMotion step.1 rest
    (tail.1, step.2 :: tail.2)

/-! ### Playback wait loops

`UnifiedVideoPlayer._wait_for_video_end_single` (rpi_video_screen.py:443-464),
`UnifiedVideoPlayer._wait_for_videos_end_dual` (rpi_video_screen.py:466-484)
and `DualVideoPlayer._wait_for_videos_end` (rpi_dual_screen.py:345-363; its
loop is line-for-line the same as the unified dual wait), and
`SimpleVideoPlayer._wait_for_video_end` (rpi_single_screen.py:273-291).

Each loop iteration reads the shutdown flag (and `self.is_playing`, which no
code mutates while the wait runs, so it is a fixed parameter here) at the
`while` guard and then the data its body polls; a run is the list of those
per-iteration observations.  The result is `some (i, exit)` when the loop
exits at iteration `i`: `aborted` for an exit through the `while` guard
(shutdown requested — the loop stops silently, issuing no command to any
player handle), `completed` for an exit through the `break` that reports the
video(s) finished.  `none` means the observations ran out with the loop still
going.  The initial `time.sleep(1)` grace period precedes observation 0 and
each later observation follows a `time.sleep(0.1)` (0.5 s for the
`SimpleVideoPlayer` variant). -/

/-- The states of `vlc.State` read through `get_state()`. -/
inductive VLCState
  | nothingSpecial
  | opening
  | buffering
  | playing
  | paused
  | stopped
  | ended
  | error
  deriving Repr, DecidableEq

/-- The terminal-state test the wait loops apply to one handle:
`state == vlc.State.Ended or state == vlc.State.Error or state == vlc.State.Stopped`. -/
def isEndedErrorStopped : VLCState → Bool
  | VLCState.ended => true
  | VLCState.error => true
  | VLCState.stopped => true
  | _ => false

/-- How a wait loop exited: through its completion `break` or through the
`while` guard. -/
inductive WaitExit
  | completed
  | aborted
  deriving Repr, DecidableEq

/-- What one iteration of a dual wait loop reads: the shutdown flag at the
guard and the two `get_state()` results. -/
structure DualObs where
  shutdown_requested : Bool
  state_left : VLCState
  state_right : VLCState
  deriving Repr, DecidableEq

/-- The dual break condition (rpi_video_screen.py:478-479): both handles
report `Ended`, `Error` or `Stopped`. -/
def dualTerminal (o : DualObs) : Bool :=
  isEndedErrorStopped o.state_left && isEndedErrorStopped o.state_right

/-- Embedding of `UnifiedVideoPlayer._wait_for_videos_end_dual`
(rpi_video_screen.py:466-484) and of the identical
`DualVideoPlayer._wait_for_videos_end` (rpi_dual_screen.py:345-363). -/
def wait_for_videos_end_dual (is_playing : Bool) :
    List DualObs → Option (ℕ × WaitExit)
  | [] => none
  | o :: rest =>
    if o.shutdown_requested || !is_playing then some (0, WaitExit.aborted)
    else if dualTerminal o then some (0, WaitExit.completed)
    else (wait_for_videos_end_dual is_playing rest).map fun p => (p.1 + 1, p.2)

/-- What one iteration of the unified single-screen wait loop reads. -/
structure SingleObs where
  shutdown_requested : Bool
  state : VLCState
  deriving Repr, DecidableEq

/-- Embedding of `UnifiedVideoPlayer._wait_for_video_end_single`
(rpi_video_screen.py:443-464): break when the one handle reports `Ended`,
`Error` or `Stopped`. -/
def wait_for_video_end_single (is_playing : Bool) :
    List SingleObs → Option (ℕ × WaitExit)
  | [] => none
  | o :: rest =>
    if o.shutdown_requested || !is_playing then some (0, WaitExit.aborted)
    else if isEndedErrorStopped o.state then some (0, WaitExit.completed)
    else (wait_for_video_end_single is_playing rest).map fun p => (p.1 + 1, p.2)

/-- What one iteration of `SimpleVideoPlayer._wait_for_video_end` reads: the
shutdown flag at the guard and `time.time()`.  That loop reads no player
state. -/
structure ClockObs where
  shutdown_requested : Bool
  now : ℚ
  deriving Repr, DecidableEq

/-- Embedding of `SimpleVideoPlayer._wait_for_video_end`
(rpi_single_screen.py:273-291): `wait_time = video_duration + 2.0`,
`start_time = time.time()` at entry, and the loop breaks once
`elapsed_time >= wait_time`; it consults no player handle state at all. -/
def simple_wait_for_video_end (is_playing : Bool) (video_duration start_time : ℚ) :
    List ClockObs → Option (ℕ × WaitExit)
  | [] => none
  | o :: rest =>
    if o.shutdown_requested || !is_playing then some (0, WaitExit.aborted)
    else if video_duration + 2 ≤ o.now - start_time then some (0, WaitExit.completed)
    else
      (simple_wait_for_video_end is_playing video_duration start_time rest).map
        fun p => (p.1 + 1, p.2)

/-! ### Player session state, `play_video` and playlist rotation -/

/-- Commands a `play_video` call issues to the underlying player handle(s)
before the wait starts (one `set_media` and one `play` per handle; the dual
variants issue them to both handles together). -/
inductive PlayerCmd
  | set_media
  | play
  deriving Repr, DecidableEq

/-- The mutable session state of `UnifiedVideoPlayer` (and of the
`SimpleVideoPlayer`/`DualVideoPlayer` variants, whose `current_video_index` /
`current_set_index` play the same role as `current_index`). -/
structure UPlayerState where
  current_index : ℕ
  is_playing : Bool
  initialized : Bool
  deriving Repr, DecidableEq

/-- Embedding of `UnifiedVideoPlayer._rotate_to_next`
(rpi_video_screen.py:486-492): `current_index = (current_index + 1) %
len(video_paths)`.  `num_videos` is the playlist length. -/
def rotate_to_next (num_videos : ℕ) (current_index : ℕ) : ℕ :=
  (current_index + 1) % num_videos

/-- Embedding of `UnifiedVideoPlayer.play_video` (rpi_video_screen.py:372-441)
together with the `_play_video_single` / `_play_video_dual` body it dispatches
to; `DualVideoPlayer.play_video` (rpi_dual_screen.py:305-343) and
`SimpleVideoPlayer.play_video` (rpi_single_screen.py:241-271) have the same
shape.  Guards: return immediately when `is_playing` or not `initialized`,
issuing no handle command.  Otherwise the `try` body runs (`raised` says
whether it raised an exception, e.g. from `play()` or the wait — when it does,
the commands already issued may be a prefix of the normal ones) and the
`finally` block unconditionally clears `is_playing` and calls
`_rotate_to_next`; the exception itself is caught by the `except` clause and
does not propagate. -/
def play_video (num_videos : ℕ) (raised : Bool) (s : UPlayerState) :
    UPlayerState × List PlayerCmd :=
  if s.is_playing then (s, [])
  else if !s.initialized then (s, [])
  else
    (⟨rotate_to_next num_videos s.current_index, false, s.initialized⟩,
      if raised then [PlayerCmd.set_media] else [PlayerCmd.set_media, PlayerCmd.play])

/-! ### Startup validation (`UnifiedVideoPlayer.__init__`, `_check_videos`) -/

/-- Embedding of `_check_videos` for single mode (rpi_video_screen.py:148-153):
every path must exist; an empty playlist makes the loop body never run and the
function return `True`.  `file_exists` abstracts `os.path.exists`. -/
def check_videos_single (file_exists : String → Bool) (paths : List String) : Bool :=
  paths.all file_exists

/-- Embedding of `_check_videos` for dual mode (rpi_video_screen.py:154-163):
both files of every set must exist; vacuously `True` on an empty list. -/
def check_videos_dual (file_exists : String → Bool)
    (sets : List (String × String)) : Bool :=
  sets.all fun p => file_exists p.1 && file_exists p.2

/-- Embedding of `UnifiedVideoPlayer.__init__` (rpi_video_screen.py:107-144):
an invalid mode raises `ValueError` (modelled as `Except.error`); otherwise
`current_index = 0`, `is_playing = False`, and `initialized` is the video
check and-ed with whether the VLC instances came up (`vlc_started` abstracts
`_start_vlc_instances`, which is only consulted when the check passed). -/
def UnifiedVideoPlayer_init (mode : String) (file_exists : String → Bool)
    (single_paths : List String) (dual_sets : List (String × String))
    (vlc_started : Bool) : Except String UPlayerState :=
  if mode = "single" then
    Except.ok ⟨0, false, check_videos_single file_exists single_paths && vlc_started⟩
  else if mode = "dual" then
    Except.ok ⟨0, false, check_videos_dual file_exists dual_sets && vlc_started⟩
  else
    Except.error ("Invalid mode: " ++ mode)

/-- Whether `main()` (rpi_video_screen.py:601-711) reaches its polling loop:
an argv mode outside single/dual makes it return at line 612 before the player
is even constructed; a constructor error is fatal; and line 660-662 returns
when the player reports not initialized.  Everything else proceeds into the
loop. -/
def main_enters_loop (mode : String) (player : Except String UPlayerState) : Bool :=
  (mode == "single" || mode == "dual") &&
    (match player with
     | Except.ok s => s.initialized
     | Except.error _ => false)

/-! ### Orchestrator trigger decision (`main` loop) -/

/-- The `cooldown_period = 3` local of `main()` (rpi_video_screen.py:687). -/
def cooldown_period : ℚ := 3

/-- `effective_cooldown = cooldown_period + EXTENDED_COOLDOWN`
(rpi_video_screen.py:697). -/
def effective_cooldown : ℚ := cooldown_period + EXTENDED_COOLDOWN

/-- One iteration of the trigger decision in the orchestrator loop
(rpi_video_screen.py:699-711; rpi_single_screen.py:378-387 is identical with
`cooldown = cooldown_period`): playback starts exactly when motion is
reported, the player is not already playing, and strictly more than `cooldown`
has elapsed since `last_trigger_time`; firing records
`last_trigger_time = current_time`.  Returns the updated `last_trigger_time`
and whether this iteration fired. -/
def main_trigger_step (cooldown : ℚ) (last_trigger_time : ℚ)
    (motion_detected is_playing : Bool) (current_time : ℚ) : ℚ × Bool :=
  if motion_detected && !is_playing &&
      decide (cooldown < current_time - last_trigger_time) then
    (current_time, true)
  else
    (last_trigger_time, false)

/-- Run the orchestrator trigger decision over a list of loop iterations, each
supplying `(motion_detected, is_playing, current_time)`. -/
def run_main_trigger (cooldown : ℚ) (last_trigger_time : ℚ) :
    List (Bool × Bool × ℚ) → ℚ × List Bool
  | [] => (last_trigger_time, [])
  | (m, p, t) :: rest =>
    let step := main_trigger_step cooldown last_trigger_time m p t
    let tail := run_main_trigger cooldown step.1 rest
    (tail.1, step.2 :: tail.2)

/-! ### Distance-based trigger (`ultra_space.py`) -/

/-- Constant `TRIGGER_CM = 15.0` from `ultra_space.py`. -/
def TRIGGER_CM : ℚ := 15

/-- Constant `HYSTERESIS_CM = 3.0` from `ultra_space.py`. -/
def HYSTERESIS_CM : ℚ := 3

/-- Constant `COOLDOWN_SEC = 0.8` from `ultra_space.py`. -/
def COOLDOWN_SEC : ℚ := 4/5

/-- Constant `STABLE_COUNT = 3` from `ultra_space.py`. -/
def STABLE_COUNT : ℕ := 3

/-- The mutable locals of `ultra_space.main()` (ultra_space.py:40-43). -/
structure UltraState where
  last_fire : ℚ
  armed : Bool
  under_count : ℕ
  over_count : ℕ
  deriving Repr, DecidableEq

/-- Initial values: `last_fire = 0.0`, `armed = True`, `under_count = 0`,
`over_count = 0`. -/
def initUltraState : UltraState := ⟨0, true, 0, 0⟩

/-- `low = TRIGGER_CM` (ultra_space.py:44). -/
def low : ℚ := TRIGGER_CM

/-- `high = TRIGGER_CM + HYSTERESIS_CM` (ultra_space.py:45). -/
def high : ℚ := TRIGGER_CM + HYSTERESIS_CM

/-- One iteration of the `ultra_space.main()` loop (ultra_space.py:48-74),
given the sampled distance `d` (cm) and `now = time.time()`.  Returns the new
state and whether this iteration fired (called `send_spacebar`).  While armed,
`d <= low` bumps `under_count` and zeroes `over_count`, and the trigger fires
— recording `last_fire = now`, disarming and zeroing `under_count` — only
when `under_count` has reached `STABLE_COUNT` and more than `COOLDOWN_SEC` has
passed since `last_fire`; `d > low` zeroes `under_count`.  While disarmed,
`d >= high` bumps `over_count` and re-arms once it reaches `STABLE_COUNT`;
`d < high` zeroes `over_count`; no fire happens in this branch. -/
def ultra_step (s : UltraState) (d now : ℚ) : UltraState × Bool :=
  if s.armed then
    if d ≤ low then
      if STABLE_COUNT ≤ s.under_count + 1 ∧ COOLDOWN_SEC < now - s.last_fire then
        (⟨now, false, 0, 0⟩, true)
      else
        (⟨s.last_fire, true, s.under_count + 1, 0⟩, false)
    else
      (⟨s.last_fire, true, 0, s.over_count⟩, false)
  else
    if high ≤ d then
      if STABLE_COUNT ≤ s.over_count + 1 then
        (⟨s.last_fire, true, s.under_count, 0⟩, false)
      else
        (⟨s.last_fire, false, s.under_count, s.over_count + 1⟩, false)
    else
      (⟨s.last_fire, false, s.under_count, 0⟩, false)

/-- Run the distance trigger over a list of polls, each supplying
`(distance_cm, now)`.  Returns the final state and the fire outputs in
order. -/
def runUltra (s : UltraState) : List (ℚ × ℚ) → UltraState × List Bool
  | [] => (s, [])
  | (d, t) :: rest =>
    let step := ultra_step s d t
    let tail := runUltra step.1 rest
    (tail.1, step.2 :: tail.2)

/-! ## Lemmas about the trigger filter -/

/-- A call that returns `True` happened outside the debounce window, stamped
`last_motion_time` with the current time and reset the counter. -/
lemma detect_true_facts (s : MotionState) (t : ℚ) (r : Bool)
    (h : (detect_motion_filtered s t r).2 = true) :
    MOTION_DEBOUNCE_TIME ≤ t - s.last_motion_time ∧
      (detect_motion_filtered s t r).1.last_motion_time = t ∧
      (detect_motion_filtered s t r).1.motion_confirmation_counter = 0 := by
  unfold detect_motion_filtered at h ⊢
  by_cases h1 : t - s.last_motion_time < MOTION_DEBOUNCE_TIME
  · simp [h1] at h
  · by_cases h2 : r = true
    · by_cases h3 : MOTION_CONFIRMATION_COUNT ≤ s.motion_confirmation_counter + 1
      · refine ⟨by linarith [not_lt.mp h1], ?_, ?_⟩ <;> simp [h1, h2, h3]
      · simp [h1, h2, h3] at h
    · simp [h1, h2] at h

/-- A call that falls inside the debounce window returns `False` and leaves
the whole filter state unchanged (the early return skips both the increment
and the reset of the counter). -/
lemma detect_in_window (s : MotionState) (t : ℚ) (r : Bool)
    (h : t - s.last_motion_time < MOTION_DEBOUNCE_TIME) :
    detect_motion_filtered s t r = (s, false) := by
  unfold detect_motion_filtered
  rw [if_pos h]

/-- One filter step never decreases `last_motion_time`. -/
lemma detect_last_mono (s : MotionState) (t : ℚ) (r : Bool) :
    s.last_motion_time ≤ (detect_motion_filtered s t r).1.last_motion_time := by
  unfold detect_motion_filtered
  by_cases h1 : t - s.last_motion_time < MOTION_DEBOUNCE_TIME
  · simp [h1]
  · by_cases h2 : r = true
    · by_cases h3 : MOTION_CONFIRMATION_COUNT ≤ s.motion_confirmation_counter + 1
      · rw [if_neg h1, if_pos h2, if_pos h3]
        have hD : (0 : ℚ) < MOTION_DEBOUNCE_TIME := by norm_num [MOTION_DEBOUNCE_TIME]
        have h1' := not_lt.mp h1
        show s.last_motion_time ≤ t
        linarith
      · simp [h1, h2, h3]
    · simp [h1, h2]

/-- Along any run, `last_motion_time` never decreases. -/
lemma runMotion_last_mono (inputs : List (ℚ × Bool)) (s : MotionState) :
    s.last_motion_time ≤ (runMotion s inputs).1.last_motion_time := by
  induction inputs generalizing s with
  | nil => exact le_refl _
  | cons p rest ih =>
    obtain ⟨t, r⟩ := p
    calc s.last_motion_time
        ≤ (detect_motion_filtered s t r).1.last_motion_time := detect_last_mono s t r
      _ ≤ _ := ih _

/-- One filter step preserves
`motion_confirmation_counter < MOTION_CONFIRMATION_COUNT`. -/
lemma detect_counter_lt (s : MotionState) (t : ℚ) (r : Bool)
    (h : s.motion_confirmation_counter < MOTION_CONFIRMATION_COUNT) :
    (detect_motion_filtered s t r).1.motion_confirmation_counter <
      MOTION_CONFIRMATION_COUNT := by
  unfold detect_motion_filtered
  have hC : 0 < MOTION_CONFIRMATION_COUNT := by norm_num [MOTION_CONFIRMATION_COUNT]
  by_cases h1 : t - s.last_motion_time < MOTION_DEBOUNCE_TIME
  · simpa [h1] using h
  · by_cases h2 : r = true
    · by_cases h3 : MOTION_CONFIRMATION_COUNT ≤ s.motion_confirmation_counter + 1
      · simpa [h1, h2, h3] using hC
      · rw [if_neg h1, if_pos h2, if_neg h3]
        show s.motion_confirmation_counter + 1 < MOTION_CONFIRMATION_COUNT
        omega
    · simpa [h1, h2] using hC

/-- The counter invariant holds after any run that starts in a state
satisfying it. -/
lemma runMotion_counter_lt (inputs : List (ℚ × Bool)) (s : MotionState)
    (h : s.motion_confirmation_counter < MOTION_CONFIRMATION_COUNT) :
    (runMotion s inputs).1.motion_confirmation_counter < MOTION_CONFIRMATION_COUNT := by
  induction inputs generalizing s with
  | nil => exact h
  | cons p rest ih =>
    obtain ⟨t, r⟩ := p
    exact ih _ (detect_counter_lt s t r h)

/-- Two confirmed events of one run are always at least
`MOTION_DEBOUNCE_TIME` apart: a confirmed event at time `t₁` stamps
`last_motion_time := t₁`, the stamp never decreases over the intervening
calls, and a later confirmed event at `t₂` requires
`MOTION_DEBOUNCE_TIME ≤ t₂ - last_motion_time`. -/
lemma motion_confirmed_separated (s₁ : MotionState) (t₁ t₂ : ℚ) (r₁ r₂ : Bool)
    (mid : List (ℚ × Bool))
    (h₁ : (detect_motion_filtered s₁ t₁ r₁).2 = true)
    (h₂ : (detect_motion_filtered
        (runMotion (detect_motion_filtered s₁ t₁ r₁).1 mid).1 t₂ r₂).2 = true) :
    MOTION_DEBOUNCE_TIME ≤ t₂ - t₁ := by
  obtain ⟨-, hl₁, -⟩ := detect_true_facts _ _ _ h₁
  obtain ⟨hd₂, -, -⟩ := detect_true_facts _ _ _ h₂
  have hmono := runMotion_last_mono mid (detect_motion_filtered s₁ t₁ r₁).1
  rw [hl₁] at hmono
  linarith

/-! ## Lemmas about the wait loops -/

/-- Characterisation of a completed dual wait: the loop exits through the
completion `break` at iteration `pre.length` exactly when no earlier iteration
saw the shutdown flag or both handles terminal, and at that iteration the flag
is clear and both handles are terminal. -/
lemma wait_dual_completed_iff (pre : List DualObs) (o : DualObs) (post : List DualObs) :
    wait_for_videos_end_dual true (pre ++ o :: post) =
        some (pre.length, WaitExit.completed) ↔
      (∀ o' ∈ pre, o'.shutdown_requested = false ∧ dualTerminal o' = false) ∧
        o.shutdown_requested = false ∧ dualTerminal o = true := by
  induction pre with
  | nil =>
    simp only [List.nil_append, List.length_nil, wait_for_videos_end_dual]
    by_cases h1 : o.shutdown_requested
    · simp [h1]
    · by_cases h2 : dualTerminal o
      · simp [h1, h2]
      · simp [h1, h2, Option.map_eq_some']
  | cons a pre ih =>
    simp only [List.cons_append, List.length_cons, wait_for_videos_end_dual]
    by_cases h1 : a.shutdown_requested
    · simp [h1]
    · by_cases h2 : dualTerminal a
      · simp [h1, h2]
      · rw [if_neg (by simp [h1]), if_neg (by simp [h2])]
        simp only [Option.map_eq_some']
        constructor
        · rintro ⟨p, hp, hpe⟩
          have hp1 : p.1 = pre.length := by
            have := congrArg Prod.fst hpe
            simpa using this
          have hp2 : p.2 = WaitExit.completed := congrArg Prod.snd hpe
          have hp' : wait_for_videos_end_dual true (pre ++ o :: post) = some p := hp
          have : wait_for_videos_end_dual true (pre ++ o :: post) =
              some (pre.length, WaitExit.completed) := by
            rw [hp', ← hp1, ← hp2]
          obtain ⟨hpre, ho⟩ := ih.mp this
          exact ⟨by simpa [h1, h2] using hpre, ho⟩
        · rintro ⟨hpre, ho⟩
          refine ⟨(pre.length, WaitExit.completed), ?_, rfl⟩
          exact ih.mpr ⟨fun o' ho' => hpre o' (List.mem_cons_of_mem a ho'), ho⟩

/-- Characterisation of a completed `SimpleVideoPlayer` wait: the loop exits
through its completion `break` at iteration `pre.length` exactly when no
earlier iteration saw the shutdown flag or an elapsed time reaching
`video_duration + 2`, and at that iteration the flag is clear and the elapsed
time has reached `video_duration + 2`.  No player state appears anywhere: the
exit is decided by the clock alone. -/
lemma simple_wait_completed_iff (dur start : ℚ) (pre : List ClockObs)
    (o : ClockObs) (post : List ClockObs) :
    simple_wait_for_video_end true dur start (pre ++ o :: post) =
        some (pre.length, WaitExit.completed) ↔
      (∀ o' ∈ pre, o'.shutdown_requested = false ∧ o'.now - start < dur + 2) ∧
        o.shutdown_requested = false ∧ dur + 2 ≤ o.now - start := by
  induction pre with
  | nil =>
    simp only [List.nil_append, List.length_nil, simple_wait_for_video_end]
    by_cases h1 : o.shutdown_requested
    · simp [h1]
    · by_cases h2 : dur + 2 ≤ o.now - start
      · simp [h1, h2]
      · simp [h1, h2, Option.map_eq_some', not_le.mp h2]
  | cons a pre ih =>
    simp only [List.cons_append, List.length_cons, simple_wait_for_video_end]
    by_cases h1 : a.shutdown_requested
    · simp [h1]
    · by_cases h2 : dur + 2 ≤ a.now - start
      · simp [h1, h2, not_lt.mpr h2]
      · rw [if_neg (by simp [h1]), if_neg h2]
        simp only [Option.map_eq_some']
        constructor
        · rintro ⟨p, hp, hpe⟩
          have hp1 : p.1 = pre.length := by
            have := congrArg Prod.fst hpe
            simpa using this
          have hp2 : p.2 = WaitExit.completed := congrArg Prod.snd hpe
          have hp' : simple_wait_for_video_end true dur start (pre ++ o :: post) =
              some p := hp
          have : simple_wait_for_video_end true dur start (pre ++ o :: post) =
              some (pre.length, WaitExit.completed) := by
            rw [hp', ← hp1, ← hp2]
          obtain ⟨hpre, ho⟩ := ih.mp this
          exact ⟨by simpa [h1, not_le.mp h2] using hpre, ho⟩
        · rintro ⟨hpre, ho⟩
          refine ⟨(pre.length, WaitExit.completed), ?_, rfl⟩
          exact ih.mpr ⟨fun o' ho' => hpre o' (List.mem_cons_of_mem a ho'), ho⟩

/-- If the single wait is still running when the shutdown flag appears, the
very next guard check exits the loop through the guard, whatever the handle
states are. -/
lemma wait_single_aborts_at_flag (pre : List SingleObs) (o : SingleObs)
    (post : List SingleObs)
    (hpre : ∀ o' ∈ pre, o'.shutdown_requested = false ∧
      isEndedErrorStopped o'.state = false)
    (ho : o.shutdown_requested = true) :
    wait_for_video_end_single true (pre ++ o :: post) =
      some (pre.length, WaitExit.aborted) := by
  induction pre with
  | nil => simp [wait_for_video_end_single, ho]
  | cons a pre ih =>
    obtain ⟨ha1, ha2⟩ := hpre a (List.mem_cons_self a pre)
    have hrest := ih fun o' ho' => hpre o' (List.mem_cons_of_mem a ho')
    simp [wait_for_video_end_single, ha1, ha2, hrest]

/-- Dual version of `wait_single_aborts_at_flag`. -/
lemma wait_dual_aborts_at_flag (pre : List DualObs) (o : DualObs)
    (post : List DualObs)
    (hpre : ∀ o' ∈ pre, o'.shutdown_requested = false ∧ dualTerminal o' = false)
    (ho : o.shutdown_requested = true) :
    wait_for_videos_end_dual true (pre ++ o :: post) =
      some (pre.length, WaitExit.aborted) := by
  induction pre with
  | nil => simp [wait_for_videos_end_dual, ho]
  | cons a pre ih =>
    obtain ⟨ha1, ha2⟩ := hpre a (List.mem_cons_self a pre)
    have hrest := ih fun o' ho' => hpre o' (List.mem_cons_of_mem a ho')
    simp [wait_for_videos_end_dual, ha1, ha2, hrest]

/-! ## Lemmas about the orchestrator trigger decision -/

/-- An iteration whose elapsed time since the last trigger is at most the
cooldown neither fires nor changes `last_trigger_time`, whatever the motion
result and playing flag are. -/
lemma main_trigger_in_cooldown (cooldown last : ℚ) (m p : Bool) (t : ℚ)
    (h : t - last ≤ cooldown) :
    main_trigger_step cooldown last m p t = (last, false) := by
  unfold main_trigger_step
  rw [if_neg]
  simp [decide_eq_true_eq, not_lt.mpr h]

/-- A firing iteration happened strictly beyond the cooldown and records the
current time as the new `last_trigger_time`. -/
lemma main_trigger_fire_facts (cooldown last : ℚ) (m p : Bool) (t : ℚ)
    (h : (main_trigger_step cooldown last m p t).2 = true) :
    cooldown < t - last ∧ (main_trigger_step cooldown last m p t).1 = t := by
  unfold main_trigger_step at h ⊢
  by_cases hc : (m && !p && decide (cooldown < t - last)) = true
  · refine ⟨?_, by rw [if_pos hc]⟩
    have := (Bool.and_eq_true _ _).mp hc
    exact of_decide_eq_true this.2
  · rw [if_neg hc] at h
    simp at h

/-- For a nonnegative cooldown, one iteration never decreases
`last_trigger_time`. -/
lemma main_trigger_last_mono (cooldown : ℚ) (hcd : 0 ≤ cooldown)
    (last : ℚ) (m p : Bool) (t : ℚ) :
    last ≤ (main_trigger_step cooldown last m p t).1 := by
  unfold main_trigger_step
  by_cases hc : (m && !p && decide (cooldown < t - last)) = true
  · rw [if_pos hc]
    have := of_decide_eq_true ((Bool.and_eq_true _ _).mp hc).2
    show last ≤ t
    linarith
  · rw [if_neg hc]

/-- For a nonnegative cooldown, `last_trigger_time` never decreases along a
run of the orchestrator loop. -/
lemma run_main_trigger_last_mono (cooldown : ℚ) (hcd : 0 ≤ cooldown)
    (inputs : List (Bool × Bool × ℚ)) (last : ℚ) :
    last ≤ (run_main_trigger cooldown last inputs).1 := by
  induction inputs generalizing last with
  | nil => exact le_refl _
  | cons i rest ih =>
    obtain ⟨m, p, t⟩ := i
    calc last ≤ (main_trigger_step cooldown last m p t).1 :=
          main_trigger_last_mono cooldown hcd last m p t
      _ ≤ _ := ih _

/-- Two fires of one orchestrator run are always strictly more than the
cooldown apart. -/
lemma main_trigger_fires_separated (cooldown : ℚ) (hcd : 0 ≤ cooldown)
    (last : ℚ) (m₁ p₁ : Bool) (t₁ : ℚ) (mid : List (Bool × Bool × ℚ))
    (m₂ p₂ : Bool) (t₂ : ℚ)
    (h₁ : (main_trigger_step cooldown last m₁ p₁ t₁).2 = true)
    (h₂ : (main_trigger_step cooldown
        (run_main_trigger cooldown (main_trigger_step cooldown last m₁ p₁ t₁).1 mid).1
        m₂ p₂ t₂).2 = true) :
    cooldown < t₂ - t₁ := by
  obtain ⟨-, hl₁⟩ := main_trigger_fire_facts cooldown last m₁ p₁ t₁ h₁
  obtain ⟨hd₂, -⟩ := main_trigger_fire_facts _ _ _ _ _ h₂
  have hmono := run_main_trigger_last_mono cooldown hcd mid
    (main_trigger_step cooldown last m₁ p₁ t₁).1
  rw [hl₁] at hmono hd₂
  linarith

/-! ## Lemmas about the distance-based trigger -/

/-- While disarmed, no iteration fires. -/
lemma ultra_no_fire_disarmed (s : UltraState) (d t : ℚ) (h : s.armed = false) :
    (ultra_step s d t).2 = false := by
  unfold ultra_step
  rw [h]
  by_cases h1 : high ≤ d
  · by_cases h2 : STABLE_COUNT ≤ s.over_count + 1 <;> simp [h1, h2]
  · simp [h1]

/-- An iteration within `COOLDOWN_SEC` of the previous fire never fires,
whatever the sampled distance and the counters are. -/
lemma ultra_in_cooldown_no_fire (s : UltraState) (d t : ℚ)
    (h : t - s.last_fire ≤ COOLDOWN_SEC) :
    (ultra_step s d t).2 = false := by
  unfold ultra_step
  by_cases ha : s.armed = true
  · rw [if_pos ha]
    by_cases hd : d ≤ low
    · rw [if_pos hd, if_neg fun hc => absurd hc.2 (not_lt.mpr h)]
    · rw [if_neg hd]
  · rw [if_neg ha]
    by_cases hd : high ≤ d
    · by_cases hc : STABLE_COUNT ≤ s.over_count + 1 <;> simp [hd, hc]
    · simp [hd]

/-- Step case: armed, sample at or below `low`, streak not yet able to fire. -/
lemma ultra_step_under_nofire (s : UltraState) (d t : ℚ)
    (harm : s.armed = true) (hd : d ≤ low)
    (hno : ¬(STABLE_COUNT ≤ s.under_count + 1 ∧ COOLDOWN_SEC < t - s.last_fire)) :
    ultra_step s d t = (⟨s.last_fire, true, s.under_count + 1, 0⟩, false) := by
  unfold ultra_step
  rw [harm, if_pos rfl, if_pos hd, if_neg hno]

/-- Step case: armed, sample at or below `low`, streak complete and cooldown
elapsed: fire. -/
lemma ultra_step_under_fire (s : UltraState) (d t : ℚ)
    (harm : s.armed = true) (hd : d ≤ low)
    (hyes : STABLE_COUNT ≤ s.under_count + 1 ∧ COOLDOWN_SEC < t - s.last_fire) :
    ultra_step s d t = (⟨t, false, 0, 0⟩, true) := by
  unfold ultra_step
  rw [harm, if_pos rfl, if_pos hd, if_pos hyes]

/-- Step case: disarmed, sample at or above `high`, streak not yet complete. -/
lemma ultra_step_over_norearm (s : UltraState) (d t : ℚ)
    (harm : s.armed = false) (hd : high ≤ d)
    (hno : ¬STABLE_COUNT ≤ s.over_count + 1) :
    ultra_step s d t = (⟨s.last_fire, false, s.under_count, s.over_count + 1⟩, false) := by
  unfold ultra_step
  rw [harm, if_neg (by simp), if_pos hd, if_neg hno]

/-- Step case: disarmed, sample at or above `high`, streak complete: re-arm. -/
lemma ultra_step_over_rearm (s : UltraState) (d t : ℚ)
    (harm : s.armed = false) (hd : high ≤ d)
    (hyes : STABLE_COUNT ≤ s.over_count + 1) :
    ultra_step s d t = (⟨s.last_fire, true, s.under_count, 0⟩, false) := by
  unfold ultra_step
  rw [harm, if_neg (by simp), if_pos hd, if_pos hyes]

/-- While armed with a fresh streak (`under_count = 0`), three consecutive
samples at or below `low` fire on the third poll — and disarm, zeroing both
counters and stamping `last_fire` — provided strictly more than `COOLDOWN_SEC`
has elapsed since the previous fire at that third poll. -/
lemma ultra_fire_after_three (s : UltraState) (d₁ d₂ d₃ t₁ t₂ t₃ : ℚ)
    (harm : s.armed = true) (hu : s.under_count = 0)
    (h₁ : d₁ ≤ low) (h₂ : d₂ ≤ low) (h₃ : d₃ ≤ low)
    (hcool : COOLDOWN_SEC < t₃ - s.last_fire) :
    runUltra s [(d₁, t₁), (d₂, t₂), (d₃, t₃)] =
      (⟨t₃, false, 0, 0⟩, [false, false, true]) := by
  have hS : STABLE_COUNT = 3 := rfl
  have e₁ : ultra_step s d₁ t₁ = (⟨s.last_fire, true, 1, 0⟩, false) := by
    rw [ultra_step_under_nofire s d₁ t₁ harm h₁ (by rw [hu]; omega), hu]
  have e₂ : ultra_step (⟨s.last_fire, true, 1, 0⟩ : UltraState) d₂ t₂ =
      (⟨s.last_fire, true, 2, 0⟩, false) :=
    ultra_step_under_nofire _ d₂ t₂ rfl h₂ (by simp only; omega)
  have e₃ : ultra_step (⟨s.last_fire, true, 2, 0⟩ : UltraState) d₃ t₃ =
      (⟨t₃, false, 0, 0⟩, true) :=
    ultra_step_under_fire _ d₃ t₃ rfl h₃ ⟨by simp only; omega, hcool⟩
  simp [runUltra, e₁, e₂, e₃]

/-- While disarmed with a fresh streak (`over_count = 0`), three consecutive
samples at or above `high` re-arm on the third poll, firing at none of them
and leaving `last_fire` and `under_count` untouched. -/
lemma ultra_rearm_after_three (s : UltraState) (d₁ d₂ d₃ t₁ t₂ t₃ : ℚ)
    (harm : s.armed = false) (ho : s.over_count = 0)
    (h₁ : high ≤ d₁) (h₂ : high ≤ d₂) (h₃ : high ≤ d₃) :
    runUltra s [(d₁, t₁), (d₂, t₂), (d₃, t₃)] =
      (⟨s.last_fire, true, s.under_count, 0⟩, [false, false, false]) := by
  have hS : STABLE_COUNT = 3 := rfl
  have e₁ : ultra_step s d₁ t₁ = (⟨s.last_fire, false, s.under_count, 1⟩, false) := by
    rw [ultra_step_over_norearm s d₁ t₁ harm h₁ (by rw [ho]; omega), ho]
  have e₂ : ultra_step (⟨s.last_fire, false, s.under_count, 1⟩ : UltraState) d₂ t₂ =
      (⟨s.last_fire, false, s.under_count, 2⟩, false) :=
    ultra_step_over_norearm _ d₂ t₂ rfl h₂ (by simp only; omega)
  have e₃ : ultra_step (⟨s.last_fire, false, s.under_count, 2⟩ : UltraState) d₃ t₃ =
      (⟨s.last_fire, true, s.under_count, 0⟩, false) :=
    ultra_step_over_rearm _ d₃ t₃ rfl h₃ (by simp only; omega)
  simp [runUltra, e₁, e₂, e₃]

/-! ## Claim C1 -/

/-- C1 counterexample.  Run the filter from its initial state over the polls
`[(1, presence), (1.1, presence)]`: the second call confirms (returns `True`)
and stamps `last_motion_time = 1.1`, leaving the counter at `0`.  The next
call, at time `1.3` with a raw sample indicating presence, falls inside the
debounce window: it returns `False` and leaves the counter at `0` instead of
incrementing it to `1` — refuting the claim's clause that "each call whose raw
sample indicates presence increments the confirmation counter" (and with it
the claim's counter arithmetic for the calls that follow the window). -/
theorem detect_motion_filtered_claim_cex :
    runMotion initMotionState [(1, true), (11/10, true)] =
      (⟨0, 11/10⟩, [false, true]) ∧
    detect_motion_filtered ⟨0, 11/10⟩ (13/10) true = (⟨0, 11/10⟩, false) ∧
    (detect_motion_filtered ⟨0, 11/10⟩ (13/10) true).1.motion_confirmation_counter ≠
      (MotionState.mk 0 (11/10)).motion_confirmation_counter + 1 := by
  refine ⟨?_, ?_, ?_⟩ <;>
    norm_num [runMotion, detect_motion_filtered, initMotionState,
      MOTION_DEBOUNCE_TIME, MOTION_CONFIRMATION_COUNT]

/-- C1 (amended): outside the debounce window the filter behaves exactly as
the claim describes — a presence sample increments the counter, an absence
sample resets it to zero, and the call returns `True` exactly when the
incremented counter reaches `MOTION_CONFIRMATION_COUNT`, after which the
counter is reset to zero and the event time recorded — but a call made less
than `MOTION_DEBOUNCE_TIME` after the previous confirmed event is suppressed
entirely: it returns `False` and leaves the counter and timestamp untouched
(it does not increment on presence, nor reset on absence).  Consequently two
confirmed events of one run are never less than `MOTION_DEBOUNCE_TIME`
apart. -/
theorem detect_motion_filtered_spec :
    (∀ (s : MotionState) (t : ℚ) (r : Bool),
        t - s.last_motion_time < MOTION_DEBOUNCE_TIME →
          detect_motion_filtered s t r = (s, false)) ∧
    (∀ (s : MotionState) (t : ℚ),
        MOTION_DEBOUNCE_TIME ≤ t - s.last_motion_time →
          (s.motion_confirmation_counter + 1 < MOTION_CONFIRMATION_COUNT →
            detect_motion_filtered s t true =
              (⟨s.motion_confirmation_counter + 1, s.last_motion_time⟩, false)) ∧
          (MOTION_CONFIRMATION_COUNT ≤ s.motion_confirmation_counter + 1 →
            detect_motion_filtered s t true = (⟨0, t⟩, true)) ∧
          detect_motion_filtered s t false = (⟨0, s.last_motion_time⟩, false)) ∧
    (∀ (s₁ : MotionState) (t₁ t₂ : ℚ) (r₁ r₂ : Bool) (mid : List (ℚ × Bool)),
        (detect_motion_filtered s₁ t₁ r₁).2 = true →
        (detect_motion_filtered
            (runMotion (detect_motion_filtered s₁ t₁ r₁).1 mid).1 t₂ r₂).2 = true →
        MOTION_DEBOUNCE_TIME ≤ t₂ - t₁) := by
  refine ⟨detect_in_window, ?_, motion_confirmed_separated⟩
  intro s t ht
  have hw : ¬ t - s.last_motion_time < MOTION_DEBOUNCE_TIME := not_lt.mpr ht
  refine ⟨?_, ?_, ?_⟩
  · intro hlt
    unfold detect_motion_filtered
    rw [if_neg hw, if_pos rfl, if_neg (by omega)]
  · intro hge
    unfold detect_motion_filtered
    rw [if_neg hw, if_pos rfl, if_pos hge]
  · unfold detect_motion_filtered
    rw [if_neg hw, if_neg (by simp)]

/-- Concrete witness for `detect_motion_filtered_spec`, exercising each
conjunct: an in-window presence call that is a no-op, an out-of-window
increment, a confirmation, an out-of-window reset, and the debounce-separation
of two confirmed events at times 1.1 and 1.8. -/
theorem detect_motion_filtered_spec_witness :
    detect_motion_filtered ⟨0, 11/10⟩ (13/10) true = (⟨0, 11/10⟩, false) ∧
    detect_motion_filtered ⟨0, 0⟩ 1 true = (⟨1, 0⟩, false) ∧
    detect_motion_filtered ⟨1, 11/10⟩ (9/5) true = (⟨0, 9/5⟩, true) ∧
    detect_motion_filtered ⟨1, 0⟩ 1 false = (⟨0, 0⟩, false) ∧
    MOTION_DEBOUNCE_TIME ≤ (9/5 : ℚ) - 11/10 := by
  refine ⟨?_, ?_, ?_, ?_, ?_⟩
  · exact detect_motion_filtered_spec.1 ⟨0, 11/10⟩ (13/10) true
      (by norm_num [MOTION_DEBOUNCE_TIME])
  · exact (detect_motion_filtered_spec.2.1 ⟨0, 0⟩ 1
      (by norm_num [MOTION_DEBOUNCE_TIME])).1 (by norm_num [MOTION_CONFIRMATION_COUNT])
  · exact (detect_motion_filtered_spec.2.1 ⟨1, 11/10⟩ (9/5)
      (by norm_num [MOTION_DEBOUNCE_TIME])).2.1 (by norm_num [MOTION_CONFIRMATION_COUNT])
  · exact (detect_motion_filtered_spec.2.1 ⟨1, 0⟩ 1
      (by norm_num [MOTION_DEBOUNCE_TIME])).2.2
  · exact detect_motion_filtered_spec.2.2 ⟨1, 0⟩ (11/10) (9/5) true true
      [(8/5, true)]
      (by norm_num [detect_motion_filtered, MOTION_DEBOUNCE_TIME,
        MOTION_CONFIRMATION_COUNT])
      (by norm_num [runMotion, detect_motion_filtered, MOTION_DEBOUNCE_TIME,
        MOTION_CONFIRMATION_COUNT])

/-! ## Claim C10 -/

/-- C10: starting from the initial state, after every sequence of calls the
confirmation counter satisfies
`0 ≤ motion_confirmation_counter < MOTION_CONFIRMATION_COUNT` (the lower bound
holds because the counter is a natural number); any call returning `True`
leaves the counter at zero; and any call made inside the debounce window of
the previous confirmed event returns `False` leaving the whole state — counter
and last-confirmed timestamp — unchanged, including calls whose sample shows
no presence. -/
theorem motion_counter_invariant :
    (∀ inputs : List (ℚ × Bool),
        (runMotion initMotionState inputs).1.motion_confirmation_counter <
          MOTION_CONFIRMATION_COUNT) ∧
    (∀ (s : MotionState) (t : ℚ) (r : Bool),
        (detect_motion_filtered s t r).2 = true →
          (detect_motion_filtered s t r).1.motion_confirmation_counter = 0) ∧
    (∀ (s : MotionState) (t : ℚ) (r : Bool),
        t - s.last_motion_time < MOTION_DEBOUNCE_TIME →
          detect_motion_filtered s t r = (s, false)) := by
  refine ⟨?_, ?_, detect_in_window⟩
  · intro inputs
    exact runMotion_counter_lt inputs initMotionState
      (by norm_num [initMotionState, MOTION_CONFIRMATION_COUNT])
  · intro s t r h
    exact (detect_true_facts s t r h).2.2

/-- Concrete witness for `motion_counter_invariant`. -/
theorem motion_counter_invariant_witness :
    (runMotion initMotionState
        [(1, true), (11/10, true), (13/10, false)]).1.motion_confirmation_counter <
      MOTION_CONFIRMATION_COUNT ∧
    (detect_motion_filtered ⟨1, 0⟩ 1 true).1.motion_confirmation_counter = 0 ∧
    detect_motion_filtered ⟨0, 11/10⟩ (13/10) false = (⟨0, 11/10⟩, false) := by
  exact ⟨motion_counter_invariant.1 [(1, true), (11/10, true), (13/10, false)],
    motion_counter_invariant.2.1 ⟨1, 0⟩ 1 true
      (by norm_num [detect_motion_filtered, MOTION_DEBOUNCE_TIME,
        MOTION_CONFIRMATION_COUNT]),
    motion_counter_invariant.2.2 ⟨0, 11/10⟩ (13/10) false
      (by norm_num [MOTION_DEBOUNCE_TIME])⟩

/-! ## Claim C2 -/

/-- C2 counterexample.  The cited `SimpleVideoPlayer._wait_for_video_end`
(rpi_single_screen.py:273-291) does not poll any player handle state — the
embedding faithfully has no handle-state input because the source loop reads
only the clock — yet it exits through its completion branch: here a wait for a
video of duration 1 s started at time 0, polled at times 0.5 and 3.5 with the
shutdown flag never set, returns at the second poll purely because the elapsed
time reached `duration + 2`, refuting the claim that every play-to-completion
wait "polls every underlying player handle's state … and returns only when all
handles report a terminal state". -/
theorem simple_wait_time_based_cex :
    simple_wait_for_video_end true 1 0 [⟨false, 1/2⟩, ⟨false, 7/2⟩] =
      some (1, WaitExit.completed) := by
  norm_num [simple_wait_for_video_end]

/-- C2 (amended): in the unified player the dual wait polls both handles'
states each iteration and exits through its completion break at iteration
`pre.length` exactly when that is the first iteration at which **both**
handles report a terminal state (ended, error or stopped) — so with one handle
terminal early and the other terminal only later, the wait does not return
before the later one is terminal — whereas the `SimpleVideoPlayer` wait is
time-based: it exits through its completion branch at the first iteration
whose elapsed time reaches the video duration plus a 2-second buffer,
independent of any handle state (absent a shutdown in both cases). -/
theorem play_wait_terminal_spec :
    (∀ (pre : List DualObs) (o : DualObs) (post : List DualObs),
        wait_for_videos_end_dual true (pre ++ o :: post) =
            some (pre.length, WaitExit.completed) ↔
          (∀ o' ∈ pre, o'.shutdown_requested = false ∧ dualTerminal o' = false) ∧
            o.shutdown_requested = false ∧ dualTerminal o = true) ∧
    (∀ (dur start : ℚ) (pre : List ClockObs) (o : ClockObs) (post : List ClockObs),
        simple_wait_for_video_end true dur start (pre ++ o :: post) =
            some (pre.length, WaitExit.completed) ↔
          (∀ o' ∈ pre, o'.shutdown_requested = false ∧ o'.now - start < dur + 2) ∧
            o.shutdown_requested = false ∧ dur + 2 ≤ o.now - start) :=
  ⟨wait_dual_completed_iff, simple_wait_completed_iff⟩

/-- Concrete witness for `play_wait_terminal_spec`: the left handle is
terminal from the second poll on, the right only at the fourth, and the dual
wait returns exactly at the fourth poll. -/
theorem play_wait_terminal_spec_witness :
    wait_for_videos_end_dual true
      [⟨false, VLCState.playing, VLCState.playing⟩,
       ⟨false, VLCState.ended, VLCState.playing⟩,
       ⟨false, VLCState.ended, VLCState.playing⟩,
       ⟨false, VLCState.ended, VLCState.ended⟩] = some (3, WaitExit.completed) :=
  (play_wait_terminal_spec.1
      [⟨false, VLCState.playing, VLCState.playing⟩,
       ⟨false, VLCState.ended, VLCState.playing⟩,
       ⟨false, VLCState.ended, VLCState.playing⟩]
      ⟨false, VLCState.ended, VLCState.ended⟩ []).mpr (by decide)

/-! ## Claim C5 -/

/-- C5: once the shutdown flag is set while a wait loop is still running, the
very next guard check — i.e. within one poll interval — exits the loop, for
the unified single-screen wait and for the dual wait (shared by
`UnifiedVideoPlayer` and `DualVideoPlayer`), whatever the handle states are at
that point or later (in particular even if no handle ever reaches a terminal
state).  The exit is the guard exit (`aborted`) and not the completion break
(`completed`); the loop body only reads handle states, so this exit issues no
command to any handle and in particular does not force playback to stop. -/
theorem wait_shutdown_aborts :
    (∀ (pre : List SingleObs) (o : SingleObs) (post : List SingleObs),
        (∀ o' ∈ pre, o'.shutdown_requested = false ∧
          isEndedErrorStopped o'.state = false) →
        o.shutdown_requested = true →
        wait_for_video_end_single true (pre ++ o :: post) =
          some (pre.length, WaitExit.aborted)) ∧
    (∀ (pre : List DualObs) (o : DualObs) (post : List DualObs),
        (∀ o' ∈ pre, o'.shutdown_requested = false ∧ dualTerminal o' = false) →
        o.shutdown_requested = true →
        wait_for_videos_end_dual true (pre ++ o :: post) =
          some (pre.length, WaitExit.aborted)) :=
  ⟨wait_single_aborts_at_flag, wait_dual_aborts_at_flag⟩

/-- Concrete witness for `wait_shutdown_aborts`: the handles stay in the
`playing` state throughout, the flag appears at the second poll, and both
waits return `aborted` exactly there. -/
theorem wait_shutdown_aborts_witness :
    wait_for_video_end_single true
      [⟨false, VLCState.playing⟩, ⟨true, VLCState.playing⟩,
       ⟨true, VLCState.playing⟩] = some (1, WaitExit.aborted) ∧
    wait_for_videos_end_dual true
      [⟨false, VLCState.playing, VLCState.playing⟩,
       ⟨true, VLCState.playing, VLCState.playing⟩] = some (1, WaitExit.aborted) :=
  ⟨wait_shutdown_aborts.1 [⟨false, VLCState.playing⟩] ⟨true, VLCState.playing⟩
      [⟨true, VLCState.playing⟩] (by decide) rfl,
    wait_shutdown_aborts.2 [⟨false, VLCState.playing, VLCState.playing⟩]
      ⟨true, VLCState.playing, VLCState.playing⟩ [] (by decide) rfl⟩

/-! ## Claim C3 -/

/-- C3: an orchestrator iteration whose elapsed time since the last fire is at
most the cooldown ignores the event — playback does not start and
`last_trigger_time` is unchanged — regardless of the trigger filter's output
(and of the playing flag); consequently, for any nonnegative cooldown (the
code uses `cooldown_period + EXTENDED_COOLDOWN = 5` in the unified player and
`cooldown_period = 3` in the simple one), two fires of one run are always
strictly more than the cooldown apart.  The `ultra_space.py` loop likewise
never fires within `COOLDOWN_SEC` of the previous fire. -/
theorem cooldown_no_refire :
    (∀ (cooldown last : ℚ) (m p : Bool) (t : ℚ),
        t - last ≤ cooldown →
          main_trigger_step cooldown last m p t = (last, false)) ∧
    (∀ cooldown : ℚ, 0 ≤ cooldown →
      ∀ (last : ℚ) (m₁ p₁ : Bool) (t₁ : ℚ) (mid : List (Bool × Bool × ℚ))
        (m₂ p₂ : Bool) (t₂ : ℚ),
        (main_trigger_step cooldown last m₁ p₁ t₁).2 = true →
        (main_trigger_step cooldown
            (run_main_trigger cooldown
              (main_trigger_step cooldown last m₁ p₁ t₁).1 mid).1 m₂ p₂ t₂).2 = true →
        cooldown < t₂ - t₁) ∧
    (∀ (s : UltraState) (d t : ℚ),
        t - s.last_fire ≤ COOLDOWN_SEC → (ultra_step s d t).2 = false) :=
  ⟨main_trigger_in_cooldown, main_trigger_fires_separated, ultra_in_cooldown_no_fire⟩

/-- Concrete witness for `cooldown_no_refire`: with the unified player's
effective cooldown of 5 s, a motion event 2 s after a fire is ignored; two
fires at times 10 and 16 of one run are more than 5 s apart; and the
`ultra_space` step taken 0.5 s after its last fire does not fire even with a
full streak. -/
theorem cooldown_no_refire_witness :
    main_trigger_step effective_cooldown 10 true false 12 = (10, false) ∧
    effective_cooldown < (16 : ℚ) - 10 ∧
    (ultra_step ⟨10, true, 5, 0⟩ 1 (21/2)).2 = false := by
  refine ⟨?_, ?_, ?_⟩
  · exact cooldown_no_refire.1 effective_cooldown 10 true false 12
      (by norm_num [effective_cooldown, cooldown_period, EXTENDED_COOLDOWN])
  · exact cooldown_no_refire.2.1 effective_cooldown
      (by norm_num [effective_cooldown, cooldown_period, EXTENDED_COOLDOWN])
      0 true false 10 [] true false 16
      (by norm_num [main_trigger_step, effective_cooldown, cooldown_period,
        EXTENDED_COOLDOWN])
      (by norm_num [main_trigger_step, run_main_trigger, effective_cooldown,
        cooldown_period, EXTENDED_COOLDOWN])
  · exact cooldown_no_refire.2.2 ⟨10, true, 5, 0⟩ 1 (21/2)
      (by norm_num [COOLDOWN_SEC])

/-! ## Claim C4 -/

/-- C4 counterexample.  From the initial state: three samples of 10 cm at
times 1.00/1.03/1.06 fire (the initial `last_fire = 0` is long past); three
samples of 20 cm re-arm by time 1.15; then three further consecutive samples
of 10 cm — each at or below `low = 15` and taken while armed — at times
1.18/1.21/1.24 do *not* fire and do not disarm, because only 0.18 s ≤
`COOLDOWN_SEC = 0.8` has passed since the fire at 1.06: the outputs are all
`false` and the final state is still armed with `under_count = 3`, refuting
the claim that while armed a sample below the near threshold sustained for
`STABLE_COUNT` consecutive polls fires the trigger and disarms. -/
theorem ultra_hysteresis_claim_cex :
    runUltra initUltraState
      [(10, 1), (10, 103/100), (10, 53/50), (20, 109/100), (20, 28/25), (20, 23/20)] =
      (⟨53/50, true, 0, 0⟩, [false, false, true, false, false, false]) ∧
    runUltra (⟨53/50, true, 0, 0⟩ : UltraState)
      [(10, 59/50), (10, 121/100), (10, 31/25)] =
      (⟨53/50, true, 3, 0⟩, [false, false, false]) ∧
    (10 : ℚ) ≤ low ∧ (31/25 : ℚ) - 53/50 ≤ COOLDOWN_SEC := by
  refine ⟨?_, ?_, ?_, ?_⟩ <;>
    norm_num [runUltra, ultra_step, initUltraState, low, high, TRIGGER_CM,
      HYSTERESIS_CM, COOLDOWN_SEC, STABLE_COUNT]

/-- C4 (amended): while armed with a fresh streak, a sample at or below the
near threshold sustained for `STABLE_COUNT = 3` consecutive polls fires on the
third poll and disarms — provided strictly more than `COOLDOWN_SEC` has
elapsed since the previous fire at that poll (otherwise nothing fires and the
streak keeps accumulating); while disarmed with a fresh streak, a sample at or
above the far threshold (`high = TRIGGER_CM + HYSTERESIS_CM`) sustained for
`STABLE_COUNT` consecutive polls re-arms on the third; and no fire ever
occurs while disarmed. -/
theorem ultra_hysteresis_spec :
    (∀ (s : UltraState) (d₁ d₂ d₃ t₁ t₂ t₃ : ℚ),
        s.armed = true → s.under_count = 0 →
        d₁ ≤ low → d₂ ≤ low → d₃ ≤ low →
        COOLDOWN_SEC < t₃ - s.last_fire →
        runUltra s [(d₁, t₁), (d₂, t₂), (d₃, t₃)] =
          (⟨t₃, false, 0, 0⟩, [false, false, true])) ∧
    (∀ (s : UltraState) (d₁ d₂ d₃ t₁ t₂ t₃ : ℚ),
        s.armed = false → s.over_count = 0 →
        high ≤ d₁ → high ≤ d₂ → high ≤ d₃ →
        runUltra s [(d₁, t₁), (d₂, t₂), (d₃, t₃)] =
          (⟨s.last_fire, true, s.under_count, 0⟩, [false, false, false])) ∧
    (∀ (s : UltraState) (d t : ℚ), s.armed = false → (ultra_step s d t).2 = false) :=
  ⟨ultra_fire_after_three, ultra_rearm_after_three, ultra_no_fire_disarmed⟩

/-- Concrete witness for `ultra_hysteresis_spec`. -/
theorem ultra_hysteresis_spec_witness :
    runUltra (⟨0, true, 0, 0⟩ : UltraState) [(10, 1), (10, 2), (10, 3)] =
      (⟨3, false, 0, 0⟩, [false, false, true]) ∧
    runUltra (⟨3, false, 7, 0⟩ : UltraState) [(20, 4), (20, 5), (20, 6)] =
      (⟨3, true, 7, 0⟩, [false, false, false]) ∧
    (ultra_step ⟨3, false, 0, 0⟩ 1 4).2 = false := by
  refine ⟨?_, ?_, ?_⟩
  · exact ultra_hysteresis_spec.1 ⟨0, true, 0, 0⟩ 10 10 10 1 2 3 rfl rfl
      (by norm_num [low, TRIGGER_CM]) (by norm_num [low, TRIGGER_CM])
      (by norm_num [low, TRIGGER_CM]) (by norm_num [COOLDOWN_SEC])
  · exact ultra_hysteresis_spec.2.1 ⟨3, false, 7, 0⟩ 20 20 20 4 5 6 rfl rfl
      (by norm_num [high, TRIGGER_CM, HYSTERESIS_CM])
      (by norm_num [high, TRIGGER_CM, HYSTERESIS_CM])
      (by norm_num [high, TRIGGER_CM, HYSTERESIS_CM])
  · exact ultra_hysteresis_spec.2.2 ⟨3, false, 0, 0⟩ 1 4 rfl

/-! ## Claim C6 -/

/-- C6: every `play_video` call that passes the is-playing and initialized
guards advances `current_index` exactly once, modulo the playlist length —
and the resulting session state is the same whether the playback body
completed normally or raised an exception, so a broken entry is skipped after
one failed attempt rather than retried. -/
theorem play_video_advances_once :
    ∀ (num_videos : ℕ) (raised : Bool) (s : UPlayerState),
      s.is_playing = false → s.initialized = true →
      (play_video num_videos raised s).1.current_index =
        (s.current_index + 1) % num_videos ∧
      (play_video num_videos raised s).1 = (play_video num_videos (!raised) s).1 := by
  intro n raised s h1 h2
  unfold play_video rotate_to_next
  simp [h1, h2]

/-- Concrete witness for `play_video_advances_once`: a playlist of length 3,
current index 2, body raising an exception: the index still advances to
`(2 + 1) % 3 = 0`, identically to the non-raising run. -/
theorem play_video_advances_once_witness :
    (play_video 3 true ⟨2, false, true⟩).1.current_index = (2 + 1) % 3 ∧
    (play_video 3 true ⟨2, false, true⟩).1 = (play_video 3 (!true) ⟨2, false, true⟩).1 :=
  play_video_advances_once 3 true ⟨2, false, true⟩ rfl rfl

/-! ## Claim C7 -/

/-- Iterating `_rotate_to_next` adds the iteration count, modulo the playlist
length. -/
lemma rotate_to_next_iterate (n k i : ℕ) (h : i < n) :
    (rotate_to_next n)^[k] i = (i + k) % n := by
  induction k with
  | zero => simp [Nat.mod_eq_of_lt h]
  | succ k ih =>
    rw [Function.iterate_succ_apply', ih]
    unfold rotate_to_next
    rw [Nat.mod_add_mod, Nat.add_assoc]

/-- C7: for a playlist of length `n ≥ 1` and any current index below `n`,
applying `_rotate_to_next` `n` times returns the index to its starting value,
and a single application keeps the index below `n`. -/
theorem rotate_cyclic_invariant :
    ∀ n i : ℕ, 1 ≤ n → i < n →
      (rotate_to_next n)^[n] i = i ∧ rotate_to_next n i < n := by
  intro n i hn hi
  constructor
  · rw [rotate_to_next_iterate n n i hi, Nat.add_mod_right, Nat.mod_eq_of_lt hi]
  · exact Nat.mod_lt _ (by omega)

/-- Concrete witness for `rotate_cyclic_invariant` at `n = 3`, `i = 1`. -/
theorem rotate_cyclic_invariant_witness :
    (rotate_to_next 3)^[3] 1 = 1 ∧ rotate_to_next 3 1 < 3 :=
  rotate_cyclic_invariant 3 1 (by norm_num) (by norm_num)

/-! ## Claim C8 -/

/-- C8: while a playback is in progress, a second `play_video` call returns
immediately: the session state — current index included — is returned
unchanged and no command is issued to any player handle. -/
theorem play_video_noop_while_playing :
    ∀ (num_videos : ℕ) (raised : Bool) (s : UPlayerState),
      s.is_playing = true → play_video num_videos raised s = (s, []) := by
  intro n raised s h
  unfold play_video
  rw [if_pos h]

/-- Concrete witness for `play_video_noop_while_playing`. -/
theorem play_video_noop_while_playing_witness :
    play_video 3 false ⟨1, true, true⟩ = (⟨1, true, true⟩, []) :=
  play_video_noop_while_playing 3 false ⟨1, true, true⟩ rfl

/-! ## Claim C9 -/

/-- C9 counterexample.  An empty playlist is not detected at startup: the
constructor's `_check_videos` loop body never runs on an empty list, so
`UnifiedVideoPlayer.__init__` succeeds with `initialized = True` (given VLC
comes up), and `main()` proceeds past its only configuration gate into the
polling loop — the empty-playlist failure can then only surface mid-run
(an `IndexError`/`ZeroDivisionError` caught by the loop's exception handler),
refuting the claim that an empty playlist is detected at startup and fails
fast before the loop. -/
theorem init_empty_playlist_cex :
    UnifiedVideoPlayer_init "single" (fun _ => false) [] [] true =
      Except.ok ⟨0, false, true⟩ ∧
    main_enters_loop "single"
      (UnifiedVideoPlayer_init "single" (fun _ => false) [] [] true) = true :=
  ⟨rfl, rfl⟩

/-- C9 (amended): an invalid mode is detected at startup and fails fast — the
constructor raises `ValueError` before anything else, and `main` never reaches
its loop — but an empty playlist is *not* detected at startup: the video check
passes vacuously and initialization succeeds (its outcome determined solely by
whether VLC started), so an empty-playlist misconfiguration first surfaces
mid-run rather than at startup. -/
theorem startup_validation_spec :
    (∀ (mode : String) (fe : String → Bool) (sp : List String)
        (ds : List (String × String)) (v : Bool),
        mode ≠ "single" → mode ≠ "dual" →
          UnifiedVideoPlayer_init mode fe sp ds v =
              Except.error ("Invalid mode: " ++ mode) ∧
            main_enters_loop mode (UnifiedVideoPlayer_init mode fe sp ds v) = false) ∧
    (∀ (fe : String → Bool) (ds : List (String × String)) (v : Bool),
        UnifiedVideoPlayer_init "single" fe [] ds v = Except.ok ⟨0, false, v⟩) := by
  constructor
  · intro mode fe sp ds v h1 h2
    constructor
    · unfold UnifiedVideoPlayer_init
      rw [if_neg h1, if_neg h2]
    · unfold main_enters_loop UnifiedVideoPlayer_init
      rw [if_neg h1, if_neg h2]
      simp
  · intro fe ds v
    unfold UnifiedVideoPlayer_init
    rw [if_pos rfl]
    simp [check_videos_single]

/-- Concrete witness for `startup_validation_spec`. -/
theorem startup_validation_spec_witness :
    UnifiedVideoPlayer_init "triple" (fun _ => true) [] [] true =
        Except.error ("Invalid mode: " ++ "triple") ∧
    main_enters_loop "triple"
      (UnifiedVideoPlayer_init "triple" (fun _ => true) [] [] true) = false ∧
    UnifiedVideoPlayer_init "single" (fun _ => true) [] [] false =
        Except.ok ⟨0, false, false⟩ :=
  ⟨(startup_validation_spec.1 "triple" (fun _ => true) [] [] true
      (by decide) (by decide)).1,
    (startup_validation_spec.1 "triple" (fun _ => true) [] [] true
      (by decide) (by decide)).2,
    startup_validation_spec.2 (fun _ => true) [] false⟩

end Halloween
